import Mathlib

set_option maxRecDepth 4000

/-!
Verification of the conversational-geocoding and request-orchestration layer
of the smartmap repository.

The source is a React single-page application.  The orchestration logic lives
in `App` (src/unnamed/part_001): the debounced message handler
`debouncedHandleMessage`, the pure helpers `validateCoordinates` and
`calculateZoom`, the `handleError` fallback, and the route `useEffect`.
External collaborators are `getAIResponse` (src/src/lib/ai.ts) and
`getDirections` (src/lib/directions.ts).

Modelling conventions:
  * JavaScript numbers that the claims exercise are decimal literals parsed
    from text or millisecond timestamps; we model them as `ℚ` / `ℤ`.  `NaN`
    is unrepresentable in this model: the regex only ever hands
    `validateCoordinates` numerals of the shape `-?\d+\.?\d*`, which `Number`
    always parses to a finite value, so the `isNaN` guard of the source can
    never fire and is recorded as a comment.
  * React `useState` setters are modelled as sequential state updates on an
    explicit `AppState`; `useRef` cells are further fields of that state.
  * The two network suspension points (`getAIResponse`, `getDirections`) take
    their outcome from a `RunEnv` oracle; `uuidv4()` and `Date.now()` results
    are likewise supplied by the oracle, consumed in call order.
  * `AbortController`s are modelled by generation numbers: creating one
    allocates `nextGen`, `abort()` records the generation in `abortedGens`.
    Faithful to the source, nothing in the pipeline ever reads that record.
  * The route-mode zoom of the source needs real trigonometry, so the
    pipeline is parametric in the route-zoom function `routeZoom`; the actual
    (noncomputable) instance built from the source's haversine code is
    `routeZoomActual` below.
-/

deriving instance DecidableEq for Except

/-- Status of a user message, from the `Message` interface of the source
(`status?: 'sending' | 'sent' | 'error'`). -/
inductive MsgStatus where
  | sending
  | sent
  | error
  deriving DecidableEq

/-- The `Message` interface of the source. -/
structure Message where
  id : String
  text : String
  isUser : Bool
  timestamp : ℤ
  status : Option MsgStatus := none
  deriving DecidableEq

/-- The `Marker` interface of the source (`position` is a lat/lon pair,
`popup` the optional label). -/
structure Marker where
  id : String
  position : ℚ × ℚ
  popup : Option String := none
  deriving DecidableEq

/-- The mutable state owned by the `App` component: the `useState` hooks
`messages`, `markers`, `route`, `mapCenter`, `zoom`, `isLoading`,
`pendingRequests` and the `useRef` cells `lastRequestTime` and
`abortControllerRef` (modelled by `controllerGen`/`abortedGens`/`nextGen`). -/
structure AppState where
  messages : List Message
  markers : List Marker
  route : Option (List (ℚ × ℚ))
  mapCenter : ℚ × ℚ
  zoom : ℕ
  isLoading : Bool
  pendingRequests : List String
  lastRequestTime : ℤ
  controllerGen : Option ℕ
  abortedGens : List ℕ
  nextGen : ℕ
  deriving DecidableEq

/-- Result of `getDirections` (src/lib/directions.ts): decoded polyline plus
distance (km) and duration (minutes). -/
structure DirectionsResult where
  route : List (ℚ × ℚ)
  distance : ℚ
  duration : ℚ
  deriving DecidableEq

/-- Oracle for one execution of the debounced handler: the submitted text,
the `Date.now()` value at entry, the `uuidv4()` drawn for the user message,
the outcomes of the two network calls, and streams of further fresh ids and
timestamps, consumed in call order. -/
structure RunEnv where
  message : String
  now : ℤ
  messageId : String
  aiResult : Except Unit String
  directionsResult : Except Unit DirectionsResult
  uuid : ℕ → String
  time : ℕ → ℤ

/- ### String helpers mirroring the JavaScript primitives -/

/-- Model of `String.prototype.toLowerCase` restricted to ASCII (all keyword matching
in the source is over ASCII terms). -/
def jsToLower (s : String) : String := String.mk (s.data.map Char.toLower)

/-- The characters matched by the regex class `\s` (ASCII part). -/
def jsIsSpace (c : Char) : Bool :=
  c == ' ' || c == '\t' || c == '\n' || c == '\r' || c.toNat == 11 || c.toNat == 12

/-- Whether `needle` occurs as a contiguous substring of `haystack`
(JavaScript `String.prototype.includes`). -/
def listContainsSub (needle haystack : List Char) : Bool :=
  match haystack with
  | [] => needle.isEmpty
  | _ :: tl => needle.isPrefixOf haystack || listContainsSub needle tl

/-- JavaScript `hay.includes(needle)`. -/
def strIncludes (hay needle : String) : Bool :=
  listContainsSub needle.data hay.data

/-- Model of `String.prototype.trim` (ASCII whitespace part). -/
def jsTrim (s : String) : String :=
  String.mk (((s.data.dropWhile jsIsSpace).reverse.dropWhile jsIsSpace).reverse)

/- ### CoordinateExtractor: the regex scan of `debouncedHandleMessage`

The source matches `aiResponse` against the global regex
`/\[(-?\d+\.?\d*),\s*(-?\d+\.?\d*)\]/g`, strips the brackets from each
match, splits on the comma and parses the two numerals with `Number`.
We model the scan directly: the pattern is deterministic (after the greedy
numeral no backtracking can recover a failed literal), so maximal-munch
matching at each start position, skipping one character on failure and
resuming after each match, reproduces the global-regex semantics. -/

/-- Split off the maximal leading run of decimal digits (`\d+` / `\d*`). -/
def takeDigits : List Char → List Char × List Char
  | [] => ([], [])
  | c :: cs =>
    if c.isDigit then
      let p := takeDigits cs
      (c :: p.1, p.2)
    else ([], c :: cs)

/-- Numeric value of one digit character. -/
def digitVal (c : Char) : ℕ := c.toNat - 48

/-- Value of a digit run read as an integer (accumulator form). -/
def digitsToNat (acc : ℕ) : List Char → ℕ
  | [] => acc
  | c :: cs => digitsToNat (acc * 10 + digitVal c) cs

/-- Match the numeral pattern `-?\d+\.?\d*` at the head of the list and
return its `Number` value together with the unconsumed remainder.  The value
of the decimal literal `±i.f₁…f_k` is `±(i·10^k + f) / 10^k`, built with
`mkRat` so that it normalises by computation. -/
def matchNumber (cs : List Char) : Option (ℚ × List Char) :=
  let p : Bool × List Char :=
    match cs with
    | '-' :: rest => (true, rest)
    | _ => (false, cs)
  match takeDigits p.2 with
  | ([], _) => none
  | (d :: ds, rest1) =>
    let q : List Char × List Char :=
      match rest1 with
      | '.' :: rest => takeDigits rest
      | _ => ([], rest1)
    let k : ℕ := q.1.length
    let v : ℚ := mkRat (digitsToNat 0 (d :: ds) * 10 ^ k + digitsToNat 0 q.1) (10 ^ k)
    some (if p.1 then -v else v, q.2)

/-- Match the full pattern `\[(-?\d+\.?\d*),\s*(-?\d+\.?\d*)\]` at the head
of the list, returning the parsed pair and the remainder after the match. -/
def matchPairAt : List Char → Option ((ℚ × ℚ) × List Char)
  | '[' :: rest =>
    match matchNumber rest with
    | none => none
    | some (a, r1) =>
      match r1 with
      | ',' :: r2 =>
        match matchNumber (r2.dropWhile jsIsSpace) with
        | none => none
        | some (b, r3) =>
          match r3 with
          | ']' :: r4 => some ((a, b), r4)
          | _ => none
      | _ => none
  | _ => none

/-- Left-to-right global scan; `fuel` bounds the number of scan steps (each
step consumes at least one character, so the string length suffices). -/
def scanAux : ℕ → List Char → List (ℚ × ℚ)
  | 0, _ => []
  | _ + 1, [] => []
  | fuel + 1, c :: cs =>
    match matchPairAt (c :: cs) with
    | some (p, rest) => p :: scanAux fuel rest
    | none => scanAux fuel cs

/-- All bracketed numeric pairs of `text`, in order of appearance: the model
of `text.match(/\[(-?\d+\.?\d*),\s*(-?\d+\.?\d*)\]/g)` followed by the
bracket-strip / split / `Number` post-processing of the source. -/
def extractCoordsRaw (text : String) : List (ℚ × ℚ) :=
  scanAux text.length text.data

/-- The `validateCoordinates` helper of the source.  The source first checks
`isNaN(lat) || isNaN(lng)` and throws `'Invalid coordinates'`; in this model
the inputs are exact rationals parsed from digit strings, so that guard can
never fire.  The range checks throw, modelled by `Except.error`. -/
def validateCoordinates (lat lng : ℚ) : Except String (ℚ × ℚ) :=
  if lat < -90 ∨ lat > 90 then Except.error "Latitude out of range"
  else if lng < -180 ∨ lng > 180 then Except.error "Longitude out of range"
  else Except.ok (lat, lng)

/-- The `coordsMatches?.map(coord => … validateCoordinates(lat, lng))` step:
a throw inside `Array.prototype.map` aborts the whole map and propagates, so
the composite is the error-short-circuiting `mapM`. -/
def extractCoordinates (text : String) : Except String (List (ℚ × ℚ)) :=
  (extractCoordsRaw text).mapM (fun p => validateCoordinates p.1 p.2)

/- ### ZoomCalculator: `calculateZoom` of the source -/

/-- The `locationTypes.building` list of the source. -/
def buildingTypes : List String :=
  ["tower", "temple", "museum", "stadium", "palace", "monument", "building",
   "restaurant", "cafe", "shop"]

/-- The `locationTypes.area` list of the source. -/
def areaTypes : List String :=
  ["park", "garden", "district", "neighborhood", "campus", "complex"]

/-- The `locationTypes.city` list of the source. -/
def cityTypes : List String :=
  ["city", "town", "village"]

/-- The text `messages[messages.length - 1]?.text.toLowerCase() || ''`. -/
def lastMessageTextLower (messages : List Message) : String :=
  match messages.getLast? with
  | some m => jsToLower m.text
  | none => ""

/-- The `!isRoute` branch of `calculateZoom`: classify the last message's
lowercased text by the first keyword category containing a substring match;
default 17. -/
def calculateZoom_single (messages : List Message) : ℕ :=
  let messageText := lastMessageTextLower messages
  if buildingTypes.any (fun t => strIncludes messageText t) then 18
  else if areaTypes.any (fun t => strIncludes messageText t) then 16
  else if cityTypes.any (fun t => strIncludes messageText t) then 13
  else 17

/-- Model of `Math.atan2` on the reals (signed-zero distinctions of IEEE 754 do not
exist in `ℝ`; the source only ever calls it on non-negative arguments). -/
noncomputable def atan2 (y x : ℝ) : ℝ :=
  if 0 < x then Real.arctan (y / x)
  else if x = 0 then
    if 0 < y then Real.pi / 2 else if y < 0 then -(Real.pi / 2) else 0
  else if 0 ≤ y then Real.arctan (y / x) + Real.pi
  else Real.arctan (y / x) - Real.pi

/-- The distance computation of the `isRoute` branch of `calculateZoom`
(haversine formula, `R = 6371` km), exactly as written in the source. -/
noncomputable def haversineDistance (s e : ℝ × ℝ) : ℝ :=
  let dLat := (e.1 - s.1) * Real.pi / 180
  let dLon := (e.2 - s.2) * Real.pi / 180
  let a := Real.sin (dLat / 2) * Real.sin (dLat / 2) +
    Real.cos (s.1 * Real.pi / 180) * Real.cos (e.1 * Real.pi / 180) *
    Real.sin (dLon / 2) * Real.sin (dLon / 2)
  let c := 2 * atan2 (Real.sqrt a) (Real.sqrt (1 - a))
  6371 * c

/-- The distance-to-zoom table of the `isRoute` branch, thresholds as
exclusive upper bounds, first row winning. -/
noncomputable def distanceToZoom (distance : ℝ) : ℕ :=
  if distance < 1 then 15
  else if distance < 5 then 13
  else if distance < 20 then 11
  else if distance < 50 then 10
  else if distance < 100 then 9
  else if distance < 250 then 7
  else if distance < 500 then 6
  else if distance < 1000 then 5
  else if distance < 2500 then 4
  else 3

/-- The `isRoute` branch of `calculateZoom`, written out exactly as in the
source (`const [start, end] = bounds` followed by the haversine computation
and the threshold chain). -/
noncomputable def calculateZoomRouteReal (s e : ℝ × ℝ) : ℕ :=
  let dLat := (e.1 - s.1) * Real.pi / 180
  let dLon := (e.2 - s.2) * Real.pi / 180
  let a := Real.sin (dLat / 2) * Real.sin (dLat / 2) +
    Real.cos (s.1 * Real.pi / 180) * Real.cos (e.1 * Real.pi / 180) *
    Real.sin (dLon / 2) * Real.sin (dLon / 2)
  let c := 2 * atan2 (Real.sqrt a) (Real.sqrt (1 - a))
  let distance := 6371 * c
  if distance < 1 then 15
  else if distance < 5 then 13
  else if distance < 20 then 11
  else if distance < 50 then 10
  else if distance < 100 then 9
  else if distance < 250 then 7
  else if distance < 500 then 6
  else if distance < 1000 then 5
  else if distance < 2500 then 4
  else 3

/-- The route-mode zoom applied to the rational coordinates stored in the
application state. -/
noncomputable def routeZoomActual (s e : ℚ × ℚ) : ℕ :=
  calculateZoomRouteReal ((s.1 : ℝ), (s.2 : ℝ)) ((e.1 : ℝ), (e.2 : ℝ))

/-- The `calculateZoom(bounds, isRoute)` callback of the source, parametric in the
route-mode zoom function so that the pipeline stays executable; the faithful
instantiation is `routeZoom := routeZoomActual`.  The `isRoute` parameter
defaults to `false` exactly as in the source signature. -/
def calculateZoom (routeZoom : ℚ × ℚ → ℚ × ℚ → ℕ) (messages : List Message)
    (bounds : List (ℚ × ℚ)) (isRoute : Bool := false) : ℕ :=
  if isRoute = false then calculateZoom_single messages
  else routeZoom (bounds.headD (0, 0)) (bounds.getD 1 (0, 0))

/- ### The AIResponder wrapper (src/src/lib/ai.ts) -/

/-- The string returned by the `catch` branch of `getAIResponse`. -/
def aiFallbackText : String :=
  "I'm having trouble processing your request. Please try again."

/-- The `getAIResponse` wrapper of src/src/lib/ai.ts: the whole network interaction is
wrapped in `try`/`catch`, and the `catch` branch returns `aiFallbackText` as
an ordinary (resolved) string, so the returned promise never rejects. -/
def getAIResponse (result : Except Unit String) : String :=
  match result with
  | Except.ok t => t
  | Except.error _ => aiFallbackText

/- ### Small helpers used by `debouncedHandleMessage` -/

/-- The text appended by `handleError`. -/
def genericErrorText : String := "An error occurred. Please try again."

/-- The suffix appended to the AI text when `getDirections` fails. -/
def routeApologySuffix : String :=
  "\n\nI apologize, but I couldn't calculate the detailed route at the moment."

/-- Case-insensitive literal prefix match: on success returns the remainder
of the character list after the matched verb. -/
def matchVerbAt : List Char → List Char → Option (List Char)
  | [], rest => some rest
  | _ :: _, [] => none
  | v :: vs, c :: rest => if c.toLower = v then matchVerbAt vs rest else none

/-- One alternative of `^(where is|show me|find|locate)\s+`: the verb
(case-insensitive) followed by at least one whitespace character, consumed
greedily. -/
def stripVerbAlt (verb : String) (cs : List Char) : Option (List Char) :=
  match matchVerbAt verb.data cs with
  | some (c :: rest) =>
    if jsIsSpace c then some ((c :: rest).dropWhile jsIsSpace) else none
  | _ => none

/-- Model of `message.replace(/^(where is|show me|find|locate)\s+/i, '')`:
alternatives tried left to right; no match leaves the string unchanged. -/
def stripLeadingVerb (message : String) : String :=
  let cs := message.data
  match stripVerbAlt "where is" cs with
  | some r => String.mk r
  | none =>
    match stripVerbAlt "show me" cs with
    | some r => String.mk r
    | none =>
      match stripVerbAlt "find" cs with
      | some r => String.mk r
      | none =>
        match stripVerbAlt "locate" cs with
        | some r => String.mk r
        | none => message

/-- Model of `.replace(/[?.!]$/, '')`: drop one trailing `?`, `.` or `!`. -/
def stripTrailingPunct (s : String) : String :=
  match s.data.getLast? with
  | some c =>
    if c = '?' ∨ c = '.' ∨ c = '!' then String.mk s.data.dropLast else s
  | none => s

/-- Model of `Math.round` (round half towards positive infinity). -/
def jsRound (q : ℚ) : ℤ := ⌊q + 1 / 2⌋

/-- Model of `x.toFixed(1)` for the non-negative distances the source formats
(round to one decimal, ties away from zero). -/
def toFixed1 (q : ℚ) : String :=
  let n : ℤ := ⌊q * 10 + 1 / 2⌋
  toString (n / 10) ++ "." ++ toString (n % 10)

/-- Model of `Math.min(...l)` over a non-empty list (the source only calls it on the
non-empty `latitudes`/`longitudes` arrays; `0` is a dummy for `[]`). -/
def qListMin : List ℚ → ℚ
  | [] => 0
  | x :: xs => xs.foldl min x

/-- Model of `Math.max(...l)` over a non-empty list. -/
def qListMax : List ℚ → ℚ
  | [] => 0
  | x :: xs => xs.foldl max x

/-- The status update `prev.map(msg => msg.id === messageId ? withStatus(msg) : msg)`. -/
def markStatus (mid : String) (st : MsgStatus) (l : List Message) : List Message :=
  l.map (fun m => if m.id = mid then { m with status := some st } else m)

/-- Model of `new Set(prev).add(id)` (JavaScript sets keep insertion order and ignore
duplicates). -/
def insertId (id : String) (l : List String) : List String :=
  if id ∈ l then l else l ++ [id]

/-- Model of `newSet.delete(id)` on a copy of the set. -/
def removeId (id : String) (l : List String) : List String :=
  l.filter (fun x => !(x == id))

/- ### RequestOrchestrator / MessagePipeline: `debouncedHandleMessage` -/

/-- How the synchronous prefix of the debounced handler (everything up to
the `await getAIResponse`) exits: the cooldown `throw` of line 112, the
`return` of line 119 on empty trimmed text, or a genuine dispatch that
continues into the async chain.  `gen` is the generation number of the
`AbortController` installed for the dispatched chain. -/
inductive DispatchOutcome where
  | cooldownError (s : AppState)
  | emptyReturn (s : AppState)
  | dispatched (s : AppState) (gen : ℕ)
  deriving DecidableEq

/-- Lines 110–136 of the source: cooldown guard (before any mutation),
creation of the request id, `pendingRequests` insertion, advancing
`lastRequestTime`, the empty-text early return, aborting any previous
controller and installing a fresh one, `setIsLoading(true)` and appending
the user `Message` with `status: 'sending'`. -/
def dispatchPhase (env : RunEnv) (s : AppState) : DispatchOutcome :=
  if env.now - s.lastRequestTime < 1000 then DispatchOutcome.cooldownError s
  else
    let s1 : AppState :=
      { s with pendingRequests := insertId env.messageId s.pendingRequests,
               lastRequestTime := env.now }
    if jsTrim env.message = "" then DispatchOutcome.emptyReturn s1
    else
      let s2 : AppState :=
        { s1 with
          abortedGens :=
            (match s1.controllerGen with
             | some g => g :: s1.abortedGens
             | none => s1.abortedGens),
          controllerGen := some s1.nextGen,
          nextGen := s1.nextGen + 1 }
      let s3 : AppState := { s2 with isLoading := true }
      let s4 : AppState :=
        { s3 with messages := s3.messages ++
            [Message.mk env.messageId env.message true (env.time 0) (some MsgStatus.sending)] }
      DispatchOutcome.dispatched s4 s1.nextGen

/-- The `handleError` callback of the source: log and append the generic apology. -/
def handleError (env : RunEnv) (s : AppState) : AppState :=
  { s with messages := s.messages ++
      [Message.mk (env.uuid 0) genericErrorText false (env.time 1) none] }

/-- Lines 138–228 of the source: the continuation of a dispatched chain
from the moment the `getAIResponse` promise settles.  Faithful to the
source, it consults no cancellation signal anywhere: the installed
`AbortController` is never read.  Oracle streams are consumed in call
order along each control path (`uuid 0/1` the route markers or the single
marker, the next `uuid` the assistant message; `time 0` was the user
message timestamp, `time 1` the assistant one).  The `await getDirections`
suspension is folded into this continuation (its outcome is
`env.directionsResult`); no claim requires splitting there. -/
def contAfterAI (routeZoom : ℚ × ℚ → ℚ × ℚ → ℕ) (env : RunEnv)
    (s : AppState) : AppState :=
  let aiResponse := getAIResponse env.aiResult
  let afterTry : AppState :=
    match extractCoordinates aiResponse with
    | Except.error _ =>
      let s1 := handleError env s
      { s1 with messages := markStatus env.messageId MsgStatus.error s1.messages }
    | Except.ok coordinates =>
      let sBranch : AppState :=
        if coordinates.length ≥ 2 then
          let startC := coordinates.getD 0 (0, 0)
          let endC := coordinates.getD 1 (0, 0)
          let newMarkers : List Marker :=
            [Marker.mk (env.uuid 0) startC (some "Start"), Marker.mk (env.uuid 1) endC (some "End")]
          let sA := { s with markers := newMarkers }
          let sB :=
            match env.directionsResult with
            | Except.ok dr =>
              let t1 := { sA with route := some dr.route }
              let t2 := { t1 with
                zoom := calculateZoom routeZoom t1.messages [startC, endC] true }
              let enhanced := aiResponse ++ "\n\nDistance: " ++ toFixed1 dr.distance ++
                " km\nEstimated time: " ++ toString (jsRound dr.duration) ++ " minutes"
              { t2 with messages := t2.messages ++
                  [Message.mk (env.uuid 2) enhanced false (env.time 1) none] }
            | Except.error _ =>
              let t1 := { sA with messages := sA.messages ++
                  [Message.mk (env.uuid 2) (aiResponse ++ routeApologySuffix) false (env.time 1) none] }
              { t1 with route := some [startC, endC] }
          let lats := coordinates.map Prod.fst
          let lngs := coordinates.map Prod.snd
          { sB with mapCenter :=
              ((qListMin lats + qListMax lats) / 2, (qListMin lngs + qListMax lngs) / 2) }
        else if coordinates.length = 1 then
          let locationName := stripTrailingPunct (stripLeadingVerb env.message)
          let c0 := coordinates.getD 0 (0, 0)
          let t1 := { s with markers := [Marker.mk (env.uuid 0) c0 (some locationName)] }
          let t2 := { t1 with mapCenter := c0 }
          let t3 := { t2 with zoom := calculateZoom routeZoom t2.messages [c0, c0] false }
          { t3 with messages := t3.messages ++
              [Message.mk (env.uuid 1) aiResponse false (env.time 1) none] }
        else
          { s with messages := s.messages ++
              [Message.mk (env.uuid 0) aiResponse false (env.time 1) none] }
      { sBranch with messages := markStatus env.messageId MsgStatus.sent sBranch.messages }
  { afterTry with
    isLoading := false,
    controllerGen := none,
    pendingRequests := removeId env.messageId afterTry.pendingRequests }

/-- One complete, uninterleaved execution of the debounced handler. -/
def debouncedHandleMessage (routeZoom : ℚ × ℚ → ℚ × ℚ → ℕ) (env : RunEnv)
    (s : AppState) : AppState :=
  match dispatchPhase env s with
  | DispatchOutcome.cooldownError s1 => s1
  | DispatchOutcome.emptyReturn s1 => s1
  | DispatchOutcome.dispatched s1 _ => contAfterAI routeZoom env s1

/-- The state produced by a successful dispatch (the `dispatched` payload of
`dispatchPhase`), written out once for reuse in lemmas. -/
def dispatchState (env : RunEnv) (s : AppState) : AppState :=
  { s with
    pendingRequests := insertId env.messageId s.pendingRequests,
    lastRequestTime := env.now,
    abortedGens :=
      (match s.controllerGen with
       | some g => g :: s.abortedGens
       | none => s.abortedGens),
    controllerGen := some s.nextGen,
    nextGen := s.nextGen + 1,
    isLoading := true,
    messages := s.messages ++
      [Message.mk env.messageId env.message true (env.time 0) (some MsgStatus.sending)] }

/-- The `useEffect` of lines 258–275: whenever the route state holds at
least two points, recompute zoom and center from its first and last point.
The source calls `calculateZoom([bounds[0], bounds[bounds.length - 1]])`
with the `isRoute` argument omitted, so the default `false` applies — the
model mirrors that omission. -/
def routeEffect (routeZoom : ℚ × ℚ → ℚ × ℚ → ℕ) (s : AppState) : AppState :=
  match s.route with
  | none => s
  | some bounds =>
    if bounds.length ≥ 2 then
      let newZoom := calculateZoom routeZoom s.messages
        [bounds.getD 0 (0, 0), bounds.getD (bounds.length - 1) (0, 0)]
      let startPoint := bounds.getD 0 (0, 0)
      let endPoint := bounds.getD (bounds.length - 1) (0, 0)
      { s with zoom := newZoom,
               mapCenter := ((startPoint.1 + endPoint.1) / 2,
                             (startPoint.2 + endPoint.2) / 2) }
    else s

/- ### Concrete fixtures for witnesses and counterexamples -/

/-- The welcome message installed by the `useState` initializer. -/
def welcomeMessage : Message :=
  Message.mk "welcome"
    "Hello! I can help you find locations and get directions. Try:\n- 'Where is the Eiffel Tower?'\n- 'Show me directions from London to Paris'"
    false 0 none

/-- The initial state of `App` (initial `Date.now()` taken as 0):
center `[51.505, -0.09]` (written as integer fractions), zoom 13, nothing
pending. -/
def initialState : AppState :=
  AppState.mk [welcomeMessage] [] none (mkRat 51505 1000, mkRat (-9) 100) 13 false [] 0 none [] 0

/-- A trivial stand-in for the route-mode zoom, used to instantiate the
`routeZoom` parameter where its value is irrelevant. -/
def rzConst : ℚ × ℚ → ℚ × ℚ → ℕ := fun _ _ => 0

/-- A dispatch 200 ms after the previous dispatch's start (the spec's own
cooldown example). -/
def envCooldown : RunEnv :=
  RunEnv.mk "hello" 200 "req-cool" (Except.ok "") (Except.error ())
    (fun n => "K" ++ toString n) (fun _ => 201)

/-- A whitespace-only submission, dispatched well clear of the cooldown. -/
def envBlankMsg : RunEnv :=
  RunEnv.mk " " 2000 "req-blank" (Except.ok "") (Except.error ())
    (fun n => "W" ++ toString n) (fun _ => 2001)

/-- A request whose AIResponder network call fails. -/
def envAIFail : RunEnv :=
  RunEnv.mk "hello there" 2000 "idF" (Except.error ()) (Except.error ())
    (fun n => "F" ++ toString n) (fun _ => 2001)

/-- A request whose AI text contains an out-of-range coordinate match
followed by a well-formed one. -/
def envBadCoord : RunEnv :=
  RunEnv.mk "where is X" 2000 "idC"
    (Except.ok "Here: [95.0, 10] and [10, 20]") (Except.error ())
    (fun n => "C" ++ toString n) (fun _ => 2001)

/-- A two-place navigation answer in the documented template. -/
def routeAiText : String :=
  "Route from London to Paris: via the Channel. Waypoints: [[51.5, -0.09], [48.85, 2.35]]"

/-- A request with two extracted coordinates whose RoutingService call
fails. -/
def envRouteFail : RunEnv :=
  RunEnv.mk "directions please" 2000 "idR" (Except.ok routeAiText) (Except.error ())
    (fun n => "R" ++ toString n) (fun _ => 2001)

/-- First request of the cancellation scenario: a plain answer with no
coordinates, still awaiting its AI response when the second request is
dispatched. -/
def envA : RunEnv :=
  RunEnv.mk "first question" 2000 "idA" (Except.ok "plain answer A") (Except.error ())
    (fun n => "A" ++ toString n) (fun _ => 2001)

/-- Second request of the cancellation scenario, dispatched 2000 ms later
(clear of the cooldown) while the first chain is in flight. -/
def envB : RunEnv :=
  RunEnv.mk "second question" 4000 "idB" (Except.ok "plain answer B") (Except.error ())
    (fun n => "B" ++ toString n) (fun _ => 4001)

/-- The state after request A's synchronous dispatch prefix has run on the
initial state. -/
def sAfterA : AppState := dispatchState envA initialState

/-- The state after request B's synchronous dispatch prefix has run in turn
(this is the point at which A's controller is aborted). -/
def sAfterAB : AppState := dispatchState envB sAfterA

/-- A state holding a two-point route from `[0, 0]` to `[0, 90]` whose last
message ("hello") contains no zoom keyword. -/
def sRoute : AppState :=
  AppState.mk [Message.mk "m1" "hello" true 0 none] [] (some [(0, 0), (0, 90)])
    (0, 0) 13 false [] 0 none [] 0

/- ### Shared lemmas -/

/-- A cooldown rejection leaves the state untouched. -/
theorem dispatchPhase_cooldown (env : RunEnv) (s : AppState)
    (h : env.now - s.lastRequestTime < 1000) :
    dispatchPhase env s = DispatchOutcome.cooldownError s := by
  unfold dispatchPhase
  rw [if_pos h]

/-- A dispatch clear of the cooldown with non-blank trimmed text produces
exactly `dispatchState` and the generation of the fresh controller. -/
theorem dispatchPhase_dispatched (env : RunEnv) (s : AppState)
    (hcool : ¬ env.now - s.lastRequestTime < 1000)
    (htrim : ¬ jsTrim env.message = "") :
    dispatchPhase env s = DispatchOutcome.dispatched (dispatchState env s) s.nextGen := by
  unfold dispatchPhase
  rw [if_neg hcool, if_neg htrim]
  rfl

/-- Under the same conditions the whole run is the continuation applied to
the dispatched state. -/
theorem debounced_eq_cont (routeZoom : ℚ × ℚ → ℚ × ℚ → ℕ) (env : RunEnv)
    (s : AppState)
    (hcool : ¬ env.now - s.lastRequestTime < 1000)
    (htrim : ¬ jsTrim env.message = "") :
    debouncedHandleMessage routeZoom env s =
      contAfterAI routeZoom env (dispatchState env s) := by
  unfold debouncedHandleMessage
  rw [dispatchPhase_dispatched env s hcool htrim]

/-- Lemma: `markStatus` distributes over append. -/
theorem markStatus_append (mid : String) (st : MsgStatus) (l1 l2 : List Message) :
    markStatus mid st (l1 ++ l2) = markStatus mid st l1 ++ markStatus mid st l2 := by
  simp [markStatus]

/-- Lemma: `markStatus` is the identity on a list not containing the id. -/
theorem markStatus_not_mem (mid : String) (st : MsgStatus) (l : List Message)
    (h : mid ∉ l.map Message.id) : markStatus mid st l = l := by
  induction l with
  | nil => rfl
  | cons m tl ih =>
    simp only [List.map_cons, List.mem_cons] at h
    push_neg at h
    unfold markStatus at ih ⊢
    simp only [List.map_cons]
    rw [if_neg (fun hc => h.1 hc.symm), ih h.2]

/-- The zero-coordinate continuation (`ParsedNone`): append the assistant
text verbatim, mark the user message sent, run the `finally` cleanup. -/
theorem contAfterAI_ok_nil (routeZoom : ℚ × ℚ → ℚ × ℚ → ℕ) (env : RunEnv) (s : AppState)
    (h : extractCoordinates (getAIResponse env.aiResult) = Except.ok []) :
    contAfterAI routeZoom env s =
      { s with
        messages := markStatus env.messageId MsgStatus.sent
          (s.messages ++
            [Message.mk (env.uuid 0) (getAIResponse env.aiResult) false (env.time 1) none]),
        isLoading := false,
        controllerGen := none,
        pendingRequests := removeId env.messageId s.pendingRequests } := by
  simp only [contAfterAI, h]
  norm_num

theorem contAfterAI_error (routeZoom : ℚ × ℚ → ℚ × ℚ → ℕ) (env : RunEnv) (s : AppState)
    (e : String)
    (h : extractCoordinates (getAIResponse env.aiResult) = Except.error e) :
    contAfterAI routeZoom env s =
      { s with
        messages := markStatus env.messageId MsgStatus.error
          (s.messages ++
            [Message.mk (env.uuid 0) genericErrorText false (env.time 1) none]),
        isLoading := false,
        controllerGen := none,
        pendingRequests := removeId env.messageId s.pendingRequests } := by
  simp only [contAfterAI, h, handleError]

theorem contAfterAI_route_error (routeZoom : ℚ × ℚ → ℚ × ℚ → ℕ) (env : RunEnv)
    (s : AppState) (c0 c1 : ℚ × ℚ) (rest : List (ℚ × ℚ))
    (h : extractCoordinates (getAIResponse env.aiResult) = Except.ok (c0 :: c1 :: rest))
    (hdir : env.directionsResult = Except.error ()) :
    contAfterAI routeZoom env s =
      { s with
        markers := [Marker.mk (env.uuid 0) c0 (some "Start"),
                    Marker.mk (env.uuid 1) c1 (some "End")],
        messages := markStatus env.messageId MsgStatus.sent
          (s.messages ++
            [Message.mk (env.uuid 2) (getAIResponse env.aiResult ++ routeApologySuffix)
              false (env.time 1) none]),
        route := some [c0, c1],
        mapCenter :=
          ((qListMin ((c0 :: c1 :: rest).map Prod.fst) +
            qListMax ((c0 :: c1 :: rest).map Prod.fst)) / 2,
           (qListMin ((c0 :: c1 :: rest).map Prod.snd) +
            qListMax ((c0 :: c1 :: rest).map Prod.snd)) / 2),
        isLoading := false,
        controllerGen := none,
        pendingRequests := removeId env.messageId s.pendingRequests } := by
  simp only [contAfterAI, h, hdir]
  norm_num

/- ### Claim theorems -/

/-- Claim C6: a dispatch attempted within 1000 ms of the previous dispatch's
start is rejected with the cooldown error thrown before any statement that
mutates state, so the run leaves every field — messages, pending set,
markers, route, viewport and the `lastRequestTime` cooldown stamp itself —
exactly as it was. -/
theorem cooldown_rejects_without_mutation (routeZoom : ℚ × ℚ → ℚ × ℚ → ℕ)
    (env : RunEnv) (s : AppState)
    (h : env.now - s.lastRequestTime < 1000) :
    dispatchPhase env s = DispatchOutcome.cooldownError s ∧
    debouncedHandleMessage routeZoom env s = s := by
  have h1 := dispatchPhase_cooldown env s h
  refine ⟨h1, ?_⟩
  unfold debouncedHandleMessage
  rw [h1]

/-- Witness for C6: the spec's own example, a dispatch 200 ms after the
previous dispatch's start. -/
theorem cooldown_rejects_without_mutation_witness :
    dispatchPhase envCooldown initialState = DispatchOutcome.cooldownError initialState ∧
    debouncedHandleMessage rzConst envCooldown initialState = initialState :=
  cooldown_rejects_without_mutation rzConst envCooldown initialState (by decide)

/-- Claim C1 (refuted by the code): the identifier of a whitespace-only
submission is added to the pending set and `lastRequestTime` is advanced
before the `if (!message.trim()) return;` guard runs, and that early return
sits outside the `try`/`finally`, so the run terminates with the identifier
still in `PendingRequestSet` — it is never removed on this exit path. -/
theorem pending_id_leaks_on_blank_text :
    dispatchPhase envBlankMsg initialState =
      DispatchOutcome.emptyReturn
        { initialState with pendingRequests := ["req-blank"], lastRequestTime := 2000 } ∧
    debouncedHandleMessage rzConst envBlankMsg initialState =
      { initialState with pendingRequests := ["req-blank"], lastRequestTime := 2000 } ∧
    "req-blank" ∈ (debouncedHandleMessage rzConst envBlankMsg initialState).pendingRequests := by
  refine ⟨?_, ?_, ?_⟩ <;> decide

/-- Claim C2 counterexample: a request whose AIResponder network call fails
resolves with the user message marked `sent` and the apology fallback
appended — no message in the final list carries `status = error`, refuting
the claim that the triggering Message is marked status=error. -/
theorem ai_failure_yields_sent_not_error :
    (debouncedHandleMessage rzConst envAIFail initialState).messages =
      [welcomeMessage,
       Message.mk "idF" "hello there" true 2001 (some MsgStatus.sent),
       Message.mk "F0" aiFallbackText false 2001 none] ∧
    ((debouncedHandleMessage rzConst envAIFail initialState).messages.all
      (fun m => m.status != some MsgStatus.error)) = true := by
  exact ⟨by decide, by decide⟩

/-- Claim C2 (corrected): when the AIResponder call fails, `getAIResponse`
catches the failure itself and resolves with the apology fallback text, so
the pipeline takes the ordinary zero-coordinate path: the apology is
appended as an assistant Message but the triggering user Message is marked
status=sent, not status=error. -/
theorem ai_failure_appends_apology_and_marks_sent
    (routeZoom : ℚ × ℚ → ℚ × ℚ → ℕ) (env : RunEnv) (s : AppState)
    (hcool : ¬ env.now - s.lastRequestTime < 1000)
    (htrim : ¬ jsTrim env.message = "")
    (hai : env.aiResult = Except.error ())
    (hid : env.messageId ∉ s.messages.map Message.id)
    (huuid : ¬ env.uuid 0 = env.messageId) :
    (debouncedHandleMessage routeZoom env s).messages =
      s.messages ++
        [Message.mk env.messageId env.message true (env.time 0) (some MsgStatus.sent),
         Message.mk (env.uuid 0) aiFallbackText false (env.time 1) none] := by
  have hfb : getAIResponse env.aiResult = aiFallbackText := by rw [hai]; rfl
  have hex : extractCoordinates (getAIResponse env.aiResult) = Except.ok [] := by
    rw [hfb]; decide
  rw [debounced_eq_cont routeZoom env s hcool htrim,
      contAfterAI_ok_nil routeZoom env (dispatchState env s) hex]
  simp only [dispatchState, hfb]
  rw [markStatus_append, markStatus_append, markStatus_not_mem _ _ _ hid]
  simp [markStatus, huuid]

/-- Witness for the corrected C2 at the concrete failing request. -/
theorem ai_failure_appends_apology_and_marks_sent_witness :
    (debouncedHandleMessage rzConst envAIFail initialState).messages =
      [welcomeMessage] ++
        [Message.mk "idF" "hello there" true 2001 (some MsgStatus.sent),
         Message.mk "F0" aiFallbackText false 2001 none] :=
  ai_failure_appends_apology_and_marks_sent rzConst envAIFail initialState
    (by decide) (by decide) rfl (by decide) (by decide)

/-- Claim C5 counterexample: an AI text containing the out-of-range match
`[95.0, 10]` followed by the valid `[10, 20]` does not drop the bad match
and continue — `validateCoordinates` throws, the catch-all appends the
generic apology (user-visible) and marks the user message status=error, and
no marker is produced from the valid remaining match. -/
theorem out_of_range_match_aborts_request :
    (debouncedHandleMessage rzConst envBadCoord initialState).messages =
      [welcomeMessage,
       Message.mk "idC" "where is X" true 2001 (some MsgStatus.error),
       Message.mk "C0" genericErrorText false 2001 none] ∧
    (debouncedHandleMessage rzConst envBadCoord initialState).markers = [] := by
  exact ⟨by decide, by decide⟩

/-- Claim C5 (corrected): a bracketed match whose numbers are out of range
is not dropped: the `validateCoordinates` throw inside the `map` aborts the
whole request through the catch-all, which appends the generic apology
Message and marks the triggering user Message status=error; markers, route
and the viewport (center and zoom) are left unchanged and no extracted
coordinate is used. -/
theorem invalid_match_fails_whole_request
    (routeZoom : ℚ × ℚ → ℚ × ℚ → ℕ) (env : RunEnv) (s : AppState) (t e : String)
    (hcool : ¬ env.now - s.lastRequestTime < 1000)
    (htrim : ¬ jsTrim env.message = "")
    (hai : env.aiResult = Except.ok t)
    (hex : extractCoordinates t = Except.error e)
    (hid : env.messageId ∉ s.messages.map Message.id)
    (huuid : ¬ env.uuid 0 = env.messageId) :
    (debouncedHandleMessage routeZoom env s).messages =
      s.messages ++
        [Message.mk env.messageId env.message true (env.time 0) (some MsgStatus.error),
         Message.mk (env.uuid 0) genericErrorText false (env.time 1) none] ∧
    (debouncedHandleMessage routeZoom env s).markers = s.markers ∧
    (debouncedHandleMessage routeZoom env s).route = s.route ∧
    (debouncedHandleMessage routeZoom env s).mapCenter = s.mapCenter ∧
    (debouncedHandleMessage routeZoom env s).zoom = s.zoom := by
  have hfb : getAIResponse env.aiResult = t := by rw [hai]; rfl
  have hex' : extractCoordinates (getAIResponse env.aiResult) = Except.error e := by
    rw [hfb]; exact hex
  rw [debounced_eq_cont routeZoom env s hcool htrim,
      contAfterAI_error routeZoom env (dispatchState env s) e hex']
  refine ⟨?_, rfl, rfl, rfl, rfl⟩
  simp only [dispatchState]
  rw [markStatus_append, markStatus_append, markStatus_not_mem _ _ _ hid]
  simp [markStatus, huuid]

/-- Witness for the corrected C5 at the concrete mixed-validity text. -/
theorem invalid_match_fails_whole_request_witness :
    (debouncedHandleMessage rzConst envBadCoord initialState).messages =
      [welcomeMessage] ++
        [Message.mk "idC" "where is X" true 2001 (some MsgStatus.error),
         Message.mk "C0" genericErrorText false 2001 none] ∧
    (debouncedHandleMessage rzConst envBadCoord initialState).markers = [] ∧
    (debouncedHandleMessage rzConst envBadCoord initialState).route = none ∧
    (debouncedHandleMessage rzConst envBadCoord initialState).mapCenter =
      (mkRat 51505 1000, mkRat (-9) 100) ∧
    (debouncedHandleMessage rzConst envBadCoord initialState).zoom = 13 :=
  invalid_match_fails_whole_request rzConst envBadCoord initialState
    "Here: [95.0, 10] and [10, 20]" "Latitude out of range"
    (by decide) (by decide) rfl (by decide) (by decide) (by decide)

/-- Claim C9: with at least two extracted coordinates and a failing
RoutingService call, the route becomes the two-point straight line between
the first two coordinates, the assistant Message is the AI text followed by
the apology suffix, and the triggering user Message is marked status=sent
(the Start/End markers are also placed). -/
theorem routing_failure_degrades
    (routeZoom : ℚ × ℚ → ℚ × ℚ → ℕ) (env : RunEnv) (s : AppState) (t : String)
    (c0 c1 : ℚ × ℚ) (rest : List (ℚ × ℚ))
    (hcool : ¬ env.now - s.lastRequestTime < 1000)
    (htrim : ¬ jsTrim env.message = "")
    (hai : env.aiResult = Except.ok t)
    (hex : extractCoordinates t = Except.ok (c0 :: c1 :: rest))
    (hdir : env.directionsResult = Except.error ())
    (hid : env.messageId ∉ s.messages.map Message.id)
    (huuid : ¬ env.uuid 2 = env.messageId) :
    (debouncedHandleMessage routeZoom env s).route = some [c0, c1] ∧
    (debouncedHandleMessage routeZoom env s).messages =
      s.messages ++
        [Message.mk env.messageId env.message true (env.time 0) (some MsgStatus.sent),
         Message.mk (env.uuid 2) (t ++ routeApologySuffix) false (env.time 1) none] ∧
    (debouncedHandleMessage routeZoom env s).markers =
      [Marker.mk (env.uuid 0) c0 (some "Start"),
       Marker.mk (env.uuid 1) c1 (some "End")] := by
  have hfb : getAIResponse env.aiResult = t := by rw [hai]; rfl
  have hex' : extractCoordinates (getAIResponse env.aiResult) =
      Except.ok (c0 :: c1 :: rest) := by rw [hfb]; exact hex
  rw [debounced_eq_cont routeZoom env s hcool htrim,
      contAfterAI_route_error routeZoom env (dispatchState env s) c0 c1 rest hex' hdir]
  refine ⟨rfl, ?_, rfl⟩
  simp only [dispatchState, hfb]
  rw [markStatus_append, markStatus_append, markStatus_not_mem _ _ _ hid]
  simp [markStatus, huuid]

/-- Witness for C9 at a concrete two-waypoint answer with failing routing. -/
theorem routing_failure_degrades_witness :
    (debouncedHandleMessage rzConst envRouteFail initialState).route =
      some [(mkRat 103 2, mkRat (-9) 100), (mkRat 977 20, mkRat 47 20)] ∧
    (debouncedHandleMessage rzConst envRouteFail initialState).messages =
      [welcomeMessage] ++
        [Message.mk "idR" "directions please" true 2001 (some MsgStatus.sent),
         Message.mk "R2" (routeAiText ++ routeApologySuffix) false 2001 none] ∧
    (debouncedHandleMessage rzConst envRouteFail initialState).markers =
      [Marker.mk "R0" (mkRat 103 2, mkRat (-9) 100) (some "Start"),
       Marker.mk "R1" (mkRat 977 20, mkRat 47 20) (some "End")] :=
  routing_failure_degrades rzConst envRouteFail initialState routeAiText
    (mkRat 103 2, mkRat (-9) 100) (mkRat 977 20, mkRat 47 20) []
    (by decide) (by decide) rfl (by decide) rfl (by decide) (by decide)

/-- Claim C3 (refuted by the code): the second dispatch aborts the first
chain's controller (generation 0 lands in `abortedGens`), but the first
chain's continuation never consults any cancellation signal: when its AI
response arrives after the cancellation point it still appends its
assistant Message to the shared state, so the canceled chain's results are
observable alongside the newest request's. -/
theorem canceled_chain_still_mutates :
    dispatchPhase envA initialState = DispatchOutcome.dispatched sAfterA 0 ∧
    dispatchPhase envB sAfterA = DispatchOutcome.dispatched sAfterAB 1 ∧
    0 ∈ sAfterAB.abortedGens ∧
    Message.mk "A0" "plain answer A" false 2001 none ∈
      (contAfterAI rzConst envA sAfterAB).messages ∧
    (contAfterAI rzConst envA sAfterAB).messages ≠ sAfterAB.messages := by
  refine ⟨?_, ?_, ?_, ?_, ?_⟩ <;> decide

/-- Claim C10: the bracket pattern tolerates whitespace only after the
comma and requires at least one digit before an optional decimal point:
`[51.5, -0.09]` and `[51.5,-0.09]` are extracted (to 51.5 and -0.09), while
a space after `[`, a space before `]`, or a number starting with `.` yield
no coordinate. -/
theorem extraction_bracket_whitespace_shape :
    extractCoordsRaw "[51.5, -0.09]" = [(mkRat 103 2, mkRat (-9) 100)] ∧
    extractCoordsRaw "[51.5,-0.09]" = [(mkRat 103 2, mkRat (-9) 100)] ∧
    extractCoordsRaw "[ 51.5, -0.09]" = [] ∧
    extractCoordsRaw "[51.5, -0.09 ]" = [] ∧
    extractCoordsRaw "[.5, 2]" = [] ∧
    mkRat 103 2 = 51.5 ∧ mkRat (-9) 100 = -0.09 := by
  refine ⟨by decide, by decide, by decide, by decide, by decide, ?_, ?_⟩ <;>
    · rw [Rat.mkRat_eq_divInt, Rat.divInt_eq_div]
      norm_num

/-- Claim C8: in single-location mode the zoom is classified from the last
message's lowercased text by checking the keyword categories in the fixed
order building (18), area (16), city (13), first substring match winning,
with default 17 when nothing matches; and `calculateZoom` with
`isRoute = false` is exactly this classification (the `bounds` argument is
ignored). -/
theorem single_zoom_keyword_priority (routeZoom : ℚ × ℚ → ℚ × ℚ → ℕ)
    (messages : List Message) (bounds : List (ℚ × ℚ)) :
    calculateZoom routeZoom messages bounds false = calculateZoom_single messages ∧
    (buildingTypes.any (fun t => strIncludes (lastMessageTextLower messages) t) = true →
      calculateZoom_single messages = 18) ∧
    (buildingTypes.any (fun t => strIncludes (lastMessageTextLower messages) t) = false →
      areaTypes.any (fun t => strIncludes (lastMessageTextLower messages) t) = true →
      calculateZoom_single messages = 16) ∧
    (buildingTypes.any (fun t => strIncludes (lastMessageTextLower messages) t) = false →
      areaTypes.any (fun t => strIncludes (lastMessageTextLower messages) t) = false →
      cityTypes.any (fun t => strIncludes (lastMessageTextLower messages) t) = true →
      calculateZoom_single messages = 13) ∧
    (buildingTypes.any (fun t => strIncludes (lastMessageTextLower messages) t) = false →
      areaTypes.any (fun t => strIncludes (lastMessageTextLower messages) t) = false →
      cityTypes.any (fun t => strIncludes (lastMessageTextLower messages) t) = false →
      calculateZoom_single messages = 17) := by
  refine ⟨rfl, ?_, ?_, ?_, ?_⟩
  · intro h1
    simp [calculateZoom_single, h1]
  · intro h1 h2
    simp [calculateZoom_single, h1, h2]
  · intro h1 h2 h3
    simp [calculateZoom_single, h1, h2, h3]
  · intro h1 h2 h3
    simp [calculateZoom_single, h1, h2, h3]

theorem single_zoom_keyword_priority_witness :
    calculateZoom_single [Message.mk "w" "Find the City Tower!" true 0 none] = 18 ∧
    calculateZoom_single [Message.mk "w" "hello" true 0 none] = 17 :=
  ⟨(single_zoom_keyword_priority rzConst _ []).2.1 (by decide),
   (single_zoom_keyword_priority rzConst _ []).2.2.2.2 (by decide) (by decide) (by decide)⟩

/-- Row `< 1` of the distance-to-zoom table. -/
theorem distanceToZoom_lt_one {d : ℝ} (h : d < 1) : distanceToZoom d = 15 := by
  unfold distanceToZoom
  rw [if_pos h]

/-- Row `[1, 5)` of the distance-to-zoom table. -/
theorem distanceToZoom_one_five {d : ℝ} (h1 : 1 ≤ d) (h2 : d < 5) :
    distanceToZoom d = 13 := by
  unfold distanceToZoom
  rw [if_neg (by linarith), if_pos h2]

/-- Row `[5, 20)` of the distance-to-zoom table. -/
theorem distanceToZoom_five_twenty {d : ℝ} (h1 : 5 ≤ d) (h2 : d < 20) :
    distanceToZoom d = 11 := by
  unfold distanceToZoom
  rw [if_neg (by linarith), if_neg (by linarith), if_pos h2]

/-- Row `[20, 50)` of the distance-to-zoom table. -/
theorem distanceToZoom_twenty_fifty {d : ℝ} (h1 : 20 ≤ d) (h2 : d < 50) :
    distanceToZoom d = 10 := by
  unfold distanceToZoom
  rw [if_neg (by linarith), if_neg (by linarith), if_neg (by linarith), if_pos h2]

/-- Row `[50, 100)` of the distance-to-zoom table. -/
theorem distanceToZoom_fifty_hundred {d : ℝ} (h1 : 50 ≤ d) (h2 : d < 100) :
    distanceToZoom d = 9 := by
  unfold distanceToZoom
  rw [if_neg (by linarith), if_neg (by linarith), if_neg (by linarith),
      if_neg (by linarith), if_pos h2]

/-- Row `[100, 250)` of the distance-to-zoom table. -/
theorem distanceToZoom_hundred_250 {d : ℝ} (h1 : 100 ≤ d) (h2 : d < 250) :
    distanceToZoom d = 7 := by
  unfold distanceToZoom
  rw [if_neg (by linarith), if_neg (by linarith), if_neg (by linarith),
      if_neg (by linarith), if_neg (by linarith), if_pos h2]

/-- Row `[250, 500)` of the distance-to-zoom table. -/
theorem distanceToZoom_250_500 {d : ℝ} (h1 : 250 ≤ d) (h2 : d < 500) :
    distanceToZoom d = 6 := by
  unfold distanceToZoom
  rw [if_neg (by linarith), if_neg (by linarith), if_neg (by linarith),
      if_neg (by linarith), if_neg (by linarith), if_neg (by linarith), if_pos h2]

/-- Row `[500, 1000)` of the distance-to-zoom table. -/
theorem distanceToZoom_500_1000 {d : ℝ} (h1 : 500 ≤ d) (h2 : d < 1000) :
    distanceToZoom d = 5 := by
  unfold distanceToZoom
  rw [if_neg (by linarith), if_neg (by linarith), if_neg (by linarith),
      if_neg (by linarith), if_neg (by linarith), if_neg (by linarith),
      if_neg (by linarith), if_pos h2]

/-- Row `[1000, 2500)` of the distance-to-zoom table. -/
theorem distanceToZoom_1000_2500 {d : ℝ} (h1 : 1000 ≤ d) (h2 : d < 2500) :
    distanceToZoom d = 4 := by
  unfold distanceToZoom
  rw [if_neg (by linarith), if_neg (by linarith), if_neg (by linarith),
      if_neg (by linarith), if_neg (by linarith), if_neg (by linarith),
      if_neg (by linarith), if_neg (by linarith), if_pos h2]

/-- Row `≥ 2500` of the distance-to-zoom table. -/
theorem distanceToZoom_ge_2500 {d : ℝ} (h1 : 2500 ≤ d) : distanceToZoom d = 3 := by
  unfold distanceToZoom
  rw [if_neg (by linarith), if_neg (by linarith), if_neg (by linarith),
      if_neg (by linarith), if_neg (by linarith), if_neg (by linarith),
      if_neg (by linarith), if_neg (by linarith), if_neg (by linarith)]

/-- Claim C7: the route-mode zoom is exactly the threshold table applied to
the haversine great-circle distance computed with Earth radius 6371 km; each
threshold is an exclusive upper bound with the first satisfied row winning,
and at the boundaries: 0.999 km gives 15, 1 km gives 13, 4.999 km gives 13
and 5 km gives 11. -/
theorem route_zoom_is_table_of_haversine :
    (∀ p q : ℝ × ℝ, calculateZoomRouteReal p q = distanceToZoom (haversineDistance p q)) ∧
    (∀ d : ℝ,
      (d < 1 → distanceToZoom d = 15) ∧
      (1 ≤ d → d < 5 → distanceToZoom d = 13) ∧
      (5 ≤ d → d < 20 → distanceToZoom d = 11) ∧
      (20 ≤ d → d < 50 → distanceToZoom d = 10) ∧
      (50 ≤ d → d < 100 → distanceToZoom d = 9) ∧
      (100 ≤ d → d < 250 → distanceToZoom d = 7) ∧
      (250 ≤ d → d < 500 → distanceToZoom d = 6) ∧
      (500 ≤ d → d < 1000 → distanceToZoom d = 5) ∧
      (1000 ≤ d → d < 2500 → distanceToZoom d = 4) ∧
      (2500 ≤ d → distanceToZoom d = 3)) ∧
    distanceToZoom 0.999 = 15 ∧ distanceToZoom 1 = 13 ∧
    distanceToZoom 4.999 = 13 ∧ distanceToZoom 5 = 11 := by
  refine ⟨fun p q => rfl, ?_, ?_, ?_, ?_, ?_⟩
  · intro d
    exact ⟨fun h => distanceToZoom_lt_one h,
      fun h1 h2 => distanceToZoom_one_five h1 h2,
      fun h1 h2 => distanceToZoom_five_twenty h1 h2,
      fun h1 h2 => distanceToZoom_twenty_fifty h1 h2,
      fun h1 h2 => distanceToZoom_fifty_hundred h1 h2,
      fun h1 h2 => distanceToZoom_hundred_250 h1 h2,
      fun h1 h2 => distanceToZoom_250_500 h1 h2,
      fun h1 h2 => distanceToZoom_500_1000 h1 h2,
      fun h1 h2 => distanceToZoom_1000_2500 h1 h2,
      fun h1 => distanceToZoom_ge_2500 h1⟩
  · exact distanceToZoom_lt_one (by norm_num)
  · exact distanceToZoom_one_five (by norm_num) (by norm_num)
  · exact distanceToZoom_one_five (by norm_num) (by norm_num)
  · exact distanceToZoom_five_twenty (by norm_num) (by norm_num)

/-- Witness for C7: the table characterization applied at distance 30 and
the composition fact applied at a concrete endpoint pair. -/
theorem route_zoom_is_table_of_haversine_witness :
    distanceToZoom 30 = 10 ∧
    calculateZoomRouteReal (0, 0) (1, 1) = distanceToZoom (haversineDistance (0, 0) (1, 1)) :=
  ⟨((route_zoom_is_table_of_haversine.2.1 30).2.2.2.1) (by norm_num) (by norm_num),
   route_zoom_is_table_of_haversine.1 (0, 0) (1, 1)⟩

/-- Fact: `Math.atan2(x, x) = pi/4` for positive `x`. -/
theorem atan2_self {x : ℝ} (hx : 0 < x) : atan2 x x = Real.pi / 4 := by
  unfold atan2
  rw [if_pos hx, div_self (ne_of_gt hx), Real.arctan_one]

/-- The haversine distance from `[0, 0]` to `[0, 90]` is a quarter of the
Earth's circumference, `6371 * pi / 2` km. -/
theorem haversine_zero_ninety : haversineDistance (0, 0) (0, 90) = 6371 * (2 * (Real.pi / 4)) := by
  unfold haversineDistance
  dsimp only
  simp [Real.sin_zero, Real.cos_zero]
  rw [show (90:ℝ) * Real.pi / 180 / 2 = Real.pi / 4 by ring, Real.sin_pi_div_four]
  rw [show Real.sqrt 2 / 2 * (Real.sqrt 2 / 2) = Real.sqrt 2 * Real.sqrt 2 / 4 by ring,
      Real.mul_self_sqrt (by norm_num : (0:ℝ) ≤ 2)]
  norm_num
  exact atan2_self (inv_pos.mpr (Real.sqrt_pos.mpr (by norm_num)))

/-- Route-mode zoom for the endpoints `[0, 0]`, `[0, 90]`: the distance is
about 10 007 km, far beyond the last threshold, so the table yields 3. -/
theorem routeZoomActual_zero_ninety : routeZoomActual (0, 0) (0, 90) = 3 := by
  unfold routeZoomActual
  push_cast
  show distanceToZoom (haversineDistance (0, 0) (0, 90)) = 3
  rw [haversine_zero_ninety]
  exact distanceToZoom_ge_2500 (by nlinarith [Real.pi_gt_three])

/-- Claim C4 (refuted by the code): when the route state is replaced by a
two-point route, the `useEffect` recomputes the center as the endpoint
midpoint, but it calls `calculateZoom` without the `isRoute` flag, so the
zoom comes from the keyword classification of the last message (here 17,
the no-keyword default) instead of the route-mode haversine table (which
yields 3 for these endpoints). -/
theorem route_effect_uses_single_location_zoom :
    (routeEffect routeZoomActual sRoute).zoom = 17 ∧
    (routeEffect routeZoomActual sRoute).mapCenter = (0, 45) ∧
    routeZoomActual (0, 0) (0, 90) = 3 ∧ (17 : ℕ) ≠ 3 := by
  refine ⟨by decide, ?_, routeZoomActual_zero_ninety, by decide⟩
  with_unfolding_all decide
